import Mathlib

/-!
Verification of the natural-language specification of
terraform-aws-asg-dns-handler against its single source file,
src/lambda/autoscale/autoscale.py.

The Python program is shallowly embedded:

* Python strings are modelled as lists of characters (`PyStr`), so that
  the substring test (`in`), `str.replace` and `str.split` are
  kernel-computable structural recursions (`pyIn`, `pyReplace`, `pySplit`).
* The three AWS clients (autoscaling, ec2, route53) are read through an
  explicit environment `Env`; only the response components the program
  actually reads are modelled, following the external-interface
  description of the spec (desired capacity, member instance list, first
  matching tag value, instance addresses, first matching record value).
* Mutating API calls (create_tags, change_resource_record_sets,
  complete_lifecycle_action) and error-level log statements are recorded
  as an `Effect` trace; info-level logging carries no claim content and is
  not traced.
* Uncaught Python exceptions (KeyError, IndexError, ValueError, NameError)
  and `sys.exit` are modelled by `PyError`.  A function returns the traced
  effects it performed together with `none` (normal return) or
  `some e` (the exception aborting it).
-/

/-- Model of a Python `str`: its list of characters. -/
abbrev PyStr := List Char

/-- Characters of a Lean string literal, used to write `PyStr` constants. -/
def pstr (s : String) : PyStr := s.data

/-- Uncaught Python exceptions the program can raise, plus `sys.exit`. -/
inductive PyError where
  | keyError (key : PyStr)
  | indexError
  | valueError
  | nameError
  | sysExit (code : Nat)
deriving DecidableEq, Repr

instance {ε α : Type} [DecidableEq ε] [DecidableEq α] : DecidableEq (Except ε α) :=
  fun x y =>
    match x, y with
    | .error e₁, .error e₂ =>
      if h : e₁ = e₂ then .isTrue (h ▸ rfl)
      else .isFalse fun hh => h (Except.error.inj hh)
    | .ok a₁, .ok a₂ =>
      if h : a₁ = a₂ then .isTrue (h ▸ rfl)
      else .isFalse fun hh => h (Except.ok.inj hh)
    | .error _, .ok _ => .isFalse fun hh => Except.noConfusion hh
    | .ok _, .error _ => .isFalse fun hh => Except.noConfusion hh

/-- Externally visible actions of the program: mutating AWS API calls and
error-level log statements. -/
inductive Effect where
  | logError (msg : PyStr)
  | createTags (instanceId tagName : PyStr)
  | changeRecord (zoneId ip hostname op : PyStr)
  | completeLifecycleAction (hook asgName instanceId token result : PyStr)
deriving DecidableEq, Repr

def Effect.isLogError : Effect → Bool
  | .logError _ => true
  | _ => false

def Effect.isCompletion : Effect → Bool
  | .completeLifecycleAction _ _ _ _ _ => true
  | _ => false

/-- The DNS operation carried by a `changeRecord` effect, if any. -/
def Effect.recordOp : Effect → Option PyStr
  | .changeRecord _ _ _ op => some op
  | _ => none

/-- Python `sub in s` (substring containment). -/
def pyIn (sub : PyStr) : PyStr → Bool
  | [] => sub.isEmpty
  | c :: rest => sub.isPrefixOf (c :: rest) || pyIn sub rest

/-- Fuelled worker for `pyReplace`; the fuel starts at the haystack length,
which suffices because every step consumes at least one character. -/
def pyReplaceAux (sub rep : PyStr) : Nat → PyStr → PyStr
  | _, [] => []
  | 0, hay => hay
  | fuel + 1, c :: rest =>
    if sub.isPrefixOf (c :: rest) && !sub.isEmpty then
      rep ++ pyReplaceAux sub rep fuel (List.drop (sub.length - 1) rest)
    else
      c :: pyReplaceAux sub rep fuel rest

/-- Python `hay.replace(sub, rep)` for a non-empty `sub`: leftmost,
non-overlapping replacement of every occurrence.  (The program only ever
replaces the non-empty literals `#instanceid`, `#instance-count`,
`#instance-index`.) -/
def pyReplace (hay sub rep : PyStr) : PyStr :=
  pyReplaceAux sub rep hay.length hay

/-- Fuelled worker for `pySplit`. -/
def pySplitAux (sep : PyStr) : Nat → PyStr → PyStr → List PyStr
  | _, acc, [] => [acc]
  | 0, acc, rest => [acc ++ rest]
  | fuel + 1, acc, c :: rest =>
    if sep.isPrefixOf (c :: rest) && !sep.isEmpty then
      acc :: pySplitAux sep fuel [] (List.drop (sep.length - 1) rest)
    else
      pySplitAux sep fuel (acc ++ [c]) rest

/-- Python `s.split(sep)` for a non-empty separator (the program splits on
the literals "@" and "."); empty parts are kept, as in Python. -/
def pySplit (s sep : PyStr) : List PyStr :=
  pySplitAux sep s.length [] s

/-- Python `list.index`: position of the first occurrence, `none` when the
element is absent (where `list.index` raises ValueError). -/
def listIndex (x : PyStr) : List PyStr → Option Nat
  | [] => none
  | y :: ys => if y = x then some 0 else (listIndex x ys).map (· + 1)

/-- The components of one `describe_instances` reservation entry that
`fetch_ip_from_ec2` reads; a `none` field models the corresponding key
being absent from the response (Python KeyError on access). -/
structure Ec2Instance where
  privateIp : Option PyStr
  publicIp : Option PyStr
deriving DecidableEq, Repr

/-- The external world as read by the program: the `use_public_ip`
environment variable and the response components of the three AWS APIs
(spec section 6).  `asgTagValues` lists the values of the tags matching the
describe_tags filter (the code takes the first); `asgInstances` is the
ASG's member instance list, one entry per instance id; `route53FirstValue`
is the first record value of the first record set listed from the given
zone starting at the given name. -/
structure Env where
  usePublicIp : Option PyStr
  ec2Describe : PyStr → Option Ec2Instance
  asgTagValues : PyStr → List PyStr
  asgDesiredCapacity : PyStr → Nat
  asgInstances : PyStr → List PyStr
  route53FirstValue : PyStr → PyStr → Option PyStr

/-- One decoded SNS lifecycle message.  Each field is `some` exactly when
the corresponding key is present in the JSON object. -/
structure Message where
  lifecycleTransition : Option PyStr
  event : Option PyStr
  autoScalingGroupName : Option PyStr
  ec2InstanceId : Option PyStr
  lifecycleHookName : Option PyStr
  lifecycleActionToken : Option PyStr
deriving DecidableEq, Repr

/-- Log text of autoscale.py line 70 (abridged). -/
def msgNoToken : PyStr := pstr "Hostname pattern must contain one of the following tags"

/-- Log text of autoscale.py line 143 (abridged). -/
def msgUnknownEvent : PyStr := pstr "Encountered unknown event type"

/-- Log text of autoscale.py line 186. -/
def msgNoValidJson : PyStr := pstr "No valid JSON message"

/-- autoscale.py lines 20-30, `fetch_ip_from_ec2`: public address when the
`use_public_ip` environment variable equals "true", private address
otherwise; KeyError when the selected address key is absent, IndexError
when the describe response has no reservation entry. -/
def fetch_ip_from_ec2 (env : Env) (instance_id : PyStr) : Except PyError PyStr :=
  match env.ec2Describe instance_id with
  | none => .error .indexError
  | some inst =>
    if env.usePublicIp = some (pstr "true") then
      match inst.publicIp with
      | some ip => .ok ip
      | none => .error (.keyError (pstr "PublicIpAddress"))
    else
      match inst.privateIp with
      | some ip => .ok ip
      | none => .error (.keyError (pstr "PrivateIpAddress"))

/-- autoscale.py lines 33-45, `fetch_ip_from_route53`: first value of the
first listed record set; IndexError when there is none. -/
def fetch_ip_from_route53 (env : Env) (hostname zone_id : PyStr) : Except PyError PyStr :=
  match env.route53FirstValue zone_id hostname with
  | some ip => .ok ip
  | none => .error .indexError

/-- autoscale.py lines 49-62, `fetch_tag_metadata`: value of the first tag
matching the filter, split on "@"; IndexError when no tag matches. -/
def fetch_tag_metadata (env : Env) (asg_name : PyStr) : Except PyError (List PyStr) :=
  match env.asgTagValues asg_name with
  | [] => .error .indexError
  | tag_value :: _ => .ok (pySplit tag_value (pstr "@"))

/-- autoscale.py line 67. -/
def possible_tags : List PyStr :=
  [pstr "instanceid", pstr "instance-count", pstr "instance-index"]

/-- autoscale.py lines 65-92, `build_hostname`.  Returns the error-level
log effects it performed together with the result: the expanded hostname,
or `sysExit 1` (no recognized token in the pattern), or ValueError (the
`instance-index` branch with the instance id absent from the ASG's
instance list). -/
def build_hostname (env : Env) (hostname_pattern instance_id asg_name : PyStr) :
    List Effect × Except PyError PyStr :=
  if !(possible_tags.any fun tag => pyIn tag hostname_pattern) then
    ([.logError msgNoToken], .error (.sysExit 1))
  else if pyIn (pstr "instance-count") hostname_pattern then
    ([], .ok (pyReplace hostname_pattern (pstr "#instance-count")
        (pstr (Nat.repr (env.asgDesiredCapacity asg_name)))))
  else if pyIn (pstr "instance-index") hostname_pattern then
    match listIndex instance_id (env.asgInstances asg_name) with
    | some instance_index =>
        ([], .ok (pyReplace hostname_pattern (pstr "#instance-index")
            (pstr (Nat.repr instance_index))))
    | none => ([], .error .valueError)
  else
    ([], .ok (pyReplace hostname_pattern (pstr "#instanceid") instance_id))

/-- autoscale.py lines 95-108, `update_name_tag`: tags the instance with
the hostname's first label. -/
def update_name_tag (instance_id hostname : PyStr) : Effect :=
  Effect.createTags instance_id ((pySplit hostname (pstr ".")).headD [])

/-- autoscale.py lines 111-128, `update_record`. -/
def update_record (zone_id ip hostname op : PyStr) : Effect :=
  Effect.changeRecord zone_id ip hostname op

/-- autoscale.py lines 138-143: the operation assigned by the
transition-kind dispatch, `none` when the transition is unknown and the
`operation` variable is left unbound. -/
def selectOperation (transition : PyStr) : Option PyStr :=
  if transition = pstr "autoscaling:EC2_INSTANCE_LAUNCHING" then
    some (pstr "UPSERT")
  else if transition = pstr "autoscaling:EC2_INSTANCE_TERMINATING"
      ∨ transition = pstr "autoscaling:EC2_INSTANCE_LAUNCH_ERROR" then
    some (pstr "DELETE")
  else
    none

/-- autoscale.py lines 132-158, `process_message`.  Field accesses,
tuple unpacking of the tag metadata, and the read of the possibly-unbound
`operation` variable fault exactly where the Python does. -/
def process_message (env : Env) (message : Message) : List Effect × Option PyError :=
  match message.lifecycleTransition with
  | none =>
    match message.event with
    | none => ([], some (.keyError (pstr "Event")))
    | some _ => ([], none)
  | some transition =>
    let operation := selectOperation transition
    let logEffs : List Effect :=
      if operation.isNone then [.logError msgUnknownEvent] else []
    match message.autoScalingGroupName with
    | none => (logEffs, some (.keyError (pstr "AutoScalingGroupName")))
    | some asg_name =>
      match message.ec2InstanceId with
      | none => (logEffs, some (.keyError (pstr "EC2InstanceId")))
      | some instance_id =>
        match fetch_tag_metadata env asg_name with
        | .error e => (logEffs, some e)
        | .ok parts =>
          match parts with
          | [hostname_pattern, zone_id] =>
            let bres := build_hostname env hostname_pattern instance_id asg_name
            match bres.2 with
            | .error e => (logEffs ++ bres.1, some e)
            | .ok hostname =>
              match operation with
              | none => (logEffs ++ bres.1, some .nameError)
              | some op =>
                if op = pstr "UPSERT" then
                  match fetch_ip_from_ec2 env instance_id with
                  | .error e => (logEffs ++ bres.1, some e)
                  | .ok ip =>
                      (logEffs ++ bres.1 ++
                        [update_name_tag instance_id hostname,
                         update_record zone_id ip hostname op], none)
                else
                  match fetch_ip_from_route53 env hostname zone_id with
                  | .error e => (logEffs ++ bres.1, some e)
                  | .ok ip =>
                      (logEffs ++ bres.1 ++ [update_record zone_id ip hostname op], none)
          | _ => (logEffs, some .valueError)

/-- autoscale.py lines 169-170: the record loop of `lambda_handler`
(`process_record` is `process_message` after JSON decoding, which the
embedding performs up front).  The first uncaught exception aborts the
loop, keeping the effects already performed. -/
def runRecords (env : Env) : List Message → List Effect × Option PyError
  | [] => ([], none)
  | m :: ms =>
    let r := process_message env m
    match r.2 with
    | some e => (r.1, some e)
    | none =>
      let rs := runRecords env ms
      (r.1 ++ rs.1, rs.2)

/-- autoscale.py lines 166-186, `lambda_handler`.  After the loop the last
record's message is re-read; on an empty batch the loop variable `record`
was never bound and line 174 raises NameError.  The completion call's
keyword arguments are evaluated left to right, so a missing
`EC2InstanceId` or `LifecycleActionToken` key raises KeyError in that
order. -/
def lambda_handler (env : Env) (records : List Message) : List Effect × Option PyError :=
  let r := runRecords env records
  match r.2 with
  | some e => (r.1, some e)
  | none =>
    match records.getLast? with
    | none => (r.1, some .nameError)
    | some message =>
      match message.lifecycleHookName, message.autoScalingGroupName with
      | some hook, some asg_name =>
        match message.ec2InstanceId with
        | none => (r.1, some (.keyError (pstr "EC2InstanceId")))
        | some instance_id =>
          match message.lifecycleActionToken with
          | none => (r.1, some (.keyError (pstr "LifecycleActionToken")))
          | some token =>
            (r.1 ++ [.completeLifecycleAction hook asg_name instance_id token
                (pstr "CONTINUE")], none)
      | _, _ => (r.1 ++ [.logError msgNoValidJson], none)

/-- A concrete EC2 instance record used by the witnesses. -/
def inst0 : Ec2Instance where
  privateIp := some (pstr "10.0.0.5")
  publicIp := some (pstr "3.3.3.3")

/-- A concrete environment for the witnesses: no `use_public_ip` variable,
one instance `i-1`, one ASG `asg1` tagged
"web-#instanceid.example.com@ZONE1" with two member instances. -/
def env0 : Env where
  usePublicIp := none
  ec2Describe := fun iid => if iid = pstr "i-1" then some inst0 else none
  asgTagValues := fun a =>
    if a = pstr "asg1" then [pstr "web-#instanceid.example.com@ZONE1"] else []
  asgDesiredCapacity := fun _ => 2
  asgInstances := fun _ => [pstr "i-0", pstr "i-1"]
  route53FirstValue := fun _ _ => some (pstr "10.0.0.5")

/-- `env0` with `use_public_ip` set to "true". -/
def envPub : Env where
  usePublicIp := some (pstr "true")
  ec2Describe := env0.ec2Describe
  asgTagValues := env0.asgTagValues
  asgDesiredCapacity := env0.asgDesiredCapacity
  asgInstances := env0.asgInstances
  route53FirstValue := env0.route53FirstValue

/-- `env0` with `use_public_ip` set to "false" (a non-"true" value). -/
def envFalse : Env where
  usePublicIp := some (pstr "false")
  ec2Describe := env0.ec2Describe
  asgTagValues := env0.asgTagValues
  asgDesiredCapacity := env0.asgDesiredCapacity
  asgInstances := env0.asgInstances
  route53FirstValue := env0.route53FirstValue

/-- `env0` with `asg1` tagged by a pattern containing no recognized token. -/
def envBadTag : Env where
  usePublicIp := none
  ec2Describe := env0.ec2Describe
  asgTagValues := fun a =>
    if a = pstr "asg1" then [pstr "web.example.com@ZONE1"] else []
  asgDesiredCapacity := env0.asgDesiredCapacity
  asgInstances := env0.asgInstances
  route53FirstValue := env0.route53FirstValue

/-- A complete LAUNCHING lifecycle message for `asg1` / `i-1`. -/
def msgLaunch : Message where
  lifecycleTransition := some (pstr "autoscaling:EC2_INSTANCE_LAUNCHING")
  event := none
  autoScalingGroupName := some (pstr "asg1")
  ec2InstanceId := some (pstr "i-1")
  lifecycleHookName := some (pstr "hook1")
  lifecycleActionToken := some (pstr "token1")

/-- An informational (non-lifecycle) test message. -/
def msgInfo : Message where
  lifecycleTransition := none
  event := some (pstr "autoscaling:TEST_NOTIFICATION")
  autoScalingGroupName := none
  ec2InstanceId := none
  lifecycleHookName := none
  lifecycleActionToken := none

/-- A message with no keys at all. -/
def msgBare : Message where
  lifecycleTransition := none
  event := none
  autoScalingGroupName := none
  ec2InstanceId := none
  lifecycleHookName := none
  lifecycleActionToken := none

/-- A lifecycle message whose transition kind is not one of the three
recognized values. -/
def msgUnknownTrans : Message where
  lifecycleTransition := some (pstr "autoscaling:EC2_INSTANCE_REBOOT")
  event := none
  autoScalingGroupName := some (pstr "asg1")
  ec2InstanceId := some (pstr "i-1")
  lifecycleHookName := none
  lifecycleActionToken := none

/-- A LAUNCHING message missing its `AutoScalingGroupName` key. -/
def msgBadAsg : Message where
  lifecycleTransition := some (pstr "autoscaling:EC2_INSTANCE_LAUNCHING")
  event := none
  autoScalingGroupName := none
  ec2InstanceId := some (pstr "i-1")
  lifecycleHookName := none
  lifecycleActionToken := none

/-- An informational message carrying hook and ASG names but no
`EC2InstanceId`. -/
def msgHookNoIid : Message where
  lifecycleTransition := none
  event := some (pstr "autoscaling:TEST_NOTIFICATION")
  autoScalingGroupName := some (pstr "asg1")
  ec2InstanceId := none
  lifecycleHookName := some (pstr "hook1")
  lifecycleActionToken := none

/-- An informational message carrying hook, ASG and instance id but no
`LifecycleActionToken`. -/
def msgHookNoTok : Message where
  lifecycleTransition := none
  event := some (pstr "autoscaling:TEST_NOTIFICATION")
  autoScalingGroupName := some (pstr "asg1")
  ec2InstanceId := some (pstr "i-1")
  lifecycleHookName := some (pstr "hook1")
  lifecycleActionToken := none

example : pyIn (pstr "instance-count") (pstr "web-#instance-count.example.com") = true := by
  decide

example : pyIn (pstr "instance-count") (pstr "web-#instance-index.example.com") = false := by
  decide

example :
    pyReplace (pstr "web-#instanceid.example.com") (pstr "#instanceid") (pstr "i-1")
      = pstr "web-i-1.example.com" := by
  decide

example : pySplit (pstr "web-#instanceid.example.com@ZONE1") (pstr "@")
    = [pstr "web-#instanceid.example.com", pstr "ZONE1"] := by
  decide

example : pySplit (pstr "web-i-1.example.com") (pstr ".")
    = [pstr "web-i-1", pstr "example", pstr "com"] := by
  decide

example : listIndex (pstr "i-1") [pstr "i-0", pstr "i-1"] = some 1 := by decide

theorem listIndex_spec {x : PyStr} {l : List PyStr} {n : Nat}
    (h : listIndex x l = some n) :
    l.get? n = some x ∧ ∀ m, m < n → l.get? m ≠ some x := by
  induction l generalizing n with
  | nil => simp [listIndex] at h
  | cons y ys ih =>
    by_cases hyx : y = x
    · simp only [listIndex, if_pos hyx] at h
      obtain rfl : n = 0 := (Option.some.inj h).symm
      exact ⟨by simp [hyx], fun m hm => absurd hm (Nat.not_lt_zero m)⟩
    · simp only [listIndex, if_neg hyx] at h
      rcases Option.map_eq_some'.mp h with ⟨k, hk, hkn⟩
      subst hkn
      rcases ih hk with ⟨h1, h2⟩
      refine ⟨by simpa using h1, ?_⟩
      intro m hm
      cases m with
      | zero => simp [hyx]
      | succ j =>
        simpa using h2 j (Nat.lt_of_succ_lt_succ hm)

theorem listIndex_eq_none {x : PyStr} {l : List PyStr} (h : x ∉ l) :
    listIndex x l = none := by
  induction l with
  | nil => rfl
  | cons y ys ih =>
    simp only [List.mem_cons, not_or] at h
    have hyx : ¬ y = x := fun hy => h.1 hy.symm
    simp [listIndex, hyx, ih h.2]

theorem listIndex_isSome_of_mem {x : PyStr} {l : List PyStr} (h : x ∈ l) :
    (listIndex x l).isSome = true := by
  induction l with
  | nil => simp at h
  | cons y ys ih =>
    by_cases hyx : y = x
    · simp [listIndex, hyx]
    · rcases List.mem_cons.mp h with h1 | h2
      · exact absurd h1.symm hyx
      · rcases hk : listIndex x ys with _ | k
        · have := ih h2
          rw [hk] at this
          simp at this
        · simp [listIndex, hyx, hk]

/-- Claim C1: for every hostname pattern containing `instance-index` and
not `instance-count`, `build_hostname` substitutes (for the placeholder
`#instance-index`) the zero-based position of the given instance id in the
ASG's current instance list — witnessed by `get?` at that position and the
minimality of the position — and the call fails with a ValueError when the
instance id is absent from that list. -/
theorem claim_C1 (env : Env) (p instance_id asg_name : PyStr)
    (hidx : pyIn (pstr "instance-index") p = true)
    (hcnt : pyIn (pstr "instance-count") p = false) :
    (∀ n, listIndex instance_id (env.asgInstances asg_name) = some n →
       (env.asgInstances asg_name).get? n = some instance_id ∧
       (∀ m, m < n → (env.asgInstances asg_name).get? m ≠ some instance_id) ∧
       build_hostname env p instance_id asg_name
         = ([], Except.ok (pyReplace p (pstr "#instance-index") (pstr (Nat.repr n)))))
    ∧ (instance_id ∈ env.asgInstances asg_name →
        (listIndex instance_id (env.asgInstances asg_name)).isSome = true)
    ∧ (instance_id ∉ env.asgInstances asg_name →
        build_hostname env p instance_id asg_name
          = ([], Except.error PyError.valueError)) := by
  refine ⟨?_, fun hmem => listIndex_isSome_of_mem hmem, ?_⟩
  · intro n h
    rcases listIndex_spec h with ⟨h1, h2⟩
    refine ⟨h1, h2, ?_⟩
    unfold build_hostname
    simp [possible_tags, hidx, hcnt, h]
  · intro hmem
    unfold build_hostname
    simp [possible_tags, hidx, hcnt, listIndex_eq_none hmem]

theorem claim_C1_witness :
    build_hostname env0 (pstr "node-#instance-index.example.com") (pstr "i-1")
        (pstr "asg1")
      = ([], Except.ok (pstr "node-1.example.com")) := by
  have h := ((claim_C1 env0 (pstr "node-#instance-index.example.com") (pstr "i-1")
      (pstr "asg1") (by decide) (by decide)).1 1 (by decide)).2.2
  exact h.trans (by decide)

/-- Claim C2: for every hostname pattern containing `instance-count`
(whether or not the other tokens also appear, so `instance-count` takes
precedence over `instance-index`), `build_hostname` returns the pattern
with every occurrence of the placeholder `#instance-count` replaced by the
ASG's desired capacity rendered as a decimal string and every other
character unchanged. -/
theorem claim_C2 (env : Env) (p instance_id asg_name : PyStr)
    (hcnt : pyIn (pstr "instance-count") p = true) :
    build_hostname env p instance_id asg_name
      = ([], Except.ok (pyReplace p (pstr "#instance-count")
          (pstr (Nat.repr (env.asgDesiredCapacity asg_name))))) := by
  unfold build_hostname
  simp [possible_tags, hcnt]

theorem claim_C2_witness :
    build_hostname env0 (pstr "web-#instance-count-#instance-index.example.com")
        (pstr "i-1") (pstr "asg1")
      = ([], Except.ok (pstr "web-2-#instance-index.example.com")) := by
  have h := claim_C2 env0 (pstr "web-#instance-count-#instance-index.example.com")
      (pstr "i-1") (pstr "asg1") (by decide)
  exact h.trans (by decide)

/-- Claim C8: for every instance lookup that returns an instance record,
`fetch_ip_from_ec2` returns the public address exactly when the
`use_public_ip` environment variable is the literal string "true", and the
private address for any other value of the variable, including when it is
absent. -/
theorem claim_C8 (env : Env) (instance_id : PyStr) (inst : Ec2Instance)
    (pub priv : PyStr)
    (hdesc : env.ec2Describe instance_id = some inst)
    (hpub : inst.publicIp = some pub)
    (hpriv : inst.privateIp = some priv) :
    fetch_ip_from_ec2 env instance_id
      = Except.ok (if env.usePublicIp = some (pstr "true") then pub else priv) := by
  unfold fetch_ip_from_ec2
  rw [hdesc]
  by_cases hflag : env.usePublicIp = some (pstr "true")
  · simp [hflag, hpub]
  · simp [hflag, hpriv]

theorem claim_C8_witness :
    fetch_ip_from_ec2 envPub (pstr "i-1") = Except.ok (pstr "3.3.3.3")
    ∧ fetch_ip_from_ec2 envFalse (pstr "i-1") = Except.ok (pstr "10.0.0.5")
    ∧ fetch_ip_from_ec2 env0 (pstr "i-1") = Except.ok (pstr "10.0.0.5") := by
  refine ⟨?_, ?_, ?_⟩
  · exact (claim_C8 envPub (pstr "i-1") inst0 (pstr "3.3.3.3") (pstr "10.0.0.5")
      (by decide) (by decide) (by decide)).trans (by decide)
  · exact (claim_C8 envFalse (pstr "i-1") inst0 (pstr "3.3.3.3") (pstr "10.0.0.5")
      (by decide) (by decide) (by decide)).trans (by decide)
  · exact (claim_C8 env0 (pstr "i-1") inst0 (pstr "3.3.3.3") (pstr "10.0.0.5")
      (by decide) (by decide) (by decide)).trans (by decide)

/-- Claim C9: for every message without a `LifecycleTransition` key,
`process_message` reads the `Event` key before returning: it raises an
uncaught KeyError on `Event` when that key is also absent, and returns
normally (with no effects) when it is present. -/
theorem claim_C9 (env : Env) (m : Message)
    (ht : m.lifecycleTransition = none) :
    (m.event = none →
       process_message env m = ([], some (PyError.keyError (pstr "Event"))))
    ∧ (∀ e, m.event = some e → process_message env m = ([], none)) := by
  constructor
  · intro he
    unfold process_message
    rw [ht, he]
  · intro e he
    unfold process_message
    rw [ht, he]

theorem claim_C9_witness :
    process_message env0 msgBare = ([], some (PyError.keyError (pstr "Event")))
    ∧ process_message env0 msgInfo = ([], none) := by
  constructor
  · exact (claim_C9 env0 msgBare (by decide)).1 (by decide)
  · exact (claim_C9 env0 msgInfo (by decide)).2 (pstr "autoscaling:TEST_NOTIFICATION")
      (by decide)

theorem build_hostname_fst (env : Env) (p i a : PyStr) :
    (build_hostname env p i a).1
      = if !(possible_tags.any fun tag => pyIn tag p) then [Effect.logError msgNoToken]
        else [] := by
  unfold build_hostname
  repeat' split <;> (try rfl) <;> (try simp_all) <;> try simp

theorem process_message_not_completion (env : Env) (m : Message) :
    ∀ e ∈ (process_message env m).1, e.isCompletion = false := by
  intro e he
  unfold process_message at he
  repeat' split at he
  all_goals try simp only [build_hostname_fst] at he
  all_goals repeat' split at he
  all_goals try simp_all [update_name_tag, update_record]
  all_goals cases e <;> simp_all [Effect.isCompletion]

theorem process_message_record_ops (env : Env) (m : Message) (t : PyStr)
    (ht : m.lifecycleTransition = some t) :
    ∀ z ip h op, Effect.changeRecord z ip h op ∈ (process_message env m).1 →
      selectOperation t = some op := by
  intro z ip h op hmem
  unfold process_message at hmem
  rw [ht] at hmem
  repeat' split at hmem
  all_goals try simp only [build_hostname_fst] at hmem
  all_goals repeat' split at hmem
  all_goals simp_all [update_name_tag, update_record]

theorem process_message_unknown_isSome (env : Env) (m : Message) (t : PyStr)
    (ht : m.lifecycleTransition = some t) (hnone : selectOperation t = none) :
    (process_message env m).2.isSome = true := by
  unfold process_message
  rw [ht]
  repeat' split
  all_goals try simp_all
  all_goals repeat' split
  all_goals rfl

theorem process_message_unknown_head (env : Env) (m : Message) (t : PyStr)
    (ht : m.lifecycleTransition = some t) (hnone : selectOperation t = none) :
    (process_message env m).1.head? = some (Effect.logError msgUnknownEvent) := by
  unfold process_message
  rw [ht]
  repeat' split
  all_goals try simp_all
  all_goals repeat' split
  all_goals rfl

theorem process_message_unknown_all_log (env : Env) (m : Message) (t : PyStr)
    (ht : m.lifecycleTransition = some t) (hnone : selectOperation t = none) :
    ∀ e ∈ (process_message env m).1, e.isLogError = true := by
  intro e he
  unfold process_message at he
  rw [ht] at he
  repeat' split at he
  all_goals try simp only [build_hostname_fst] at he
  all_goals repeat' split at he
  all_goals try simp_all
  all_goals cases e <;> simp_all [Effect.isLogError]

theorem runRecords_not_completion (env : Env) (rs : List Message) :
    ∀ e ∈ (runRecords env rs).1, e.isCompletion = false := by
  induction rs with
  | nil => intro e he; simp [runRecords] at he
  | cons m ms ih =>
    intro e he
    simp only [runRecords] at he
    split at he
    · exact process_message_not_completion env m e he
    · rcases List.mem_append.mp he with h1 | h2
      · exact process_message_not_completion env m e h1
      · exact ih e h2

theorem countP_completion_eq_zero (l : List Effect)
    (h : ∀ e ∈ l, e.isCompletion = false) :
    l.countP Effect.isCompletion = 0 := by
  induction l with
  | nil => rfl
  | cons x xs ih =>
    have hx := h x (List.mem_cons_self x xs)
    rw [List.countP_cons, hx]
    simp [ih fun e he => h e (List.mem_cons_of_mem x he)]

/-- Claim C3: given transition `autoscaling:EC2_INSTANCE_LAUNCHING` the
dispatch of `process_message` selects the DNS operation UPSERT, and given
`autoscaling:EC2_INSTANCE_TERMINATING` or
`autoscaling:EC2_INSTANCE_LAUNCH_ERROR` it selects DELETE: every DNS
change `process_message` commits for such a message carries that
operation, and `selectOperation` (the transition dispatch of lines
138-143) returns exactly that operation. -/
theorem claim_C3 (env : Env) (m : Message) :
    (m.lifecycleTransition = some (pstr "autoscaling:EC2_INSTANCE_LAUNCHING") →
      (((process_message env m).1.filterMap Effect.recordOp).all
        fun op => decide (op = pstr "UPSERT")) = true)
    ∧ (m.lifecycleTransition = some (pstr "autoscaling:EC2_INSTANCE_TERMINATING") →
      (((process_message env m).1.filterMap Effect.recordOp).all
        fun op => decide (op = pstr "DELETE")) = true)
    ∧ (m.lifecycleTransition = some (pstr "autoscaling:EC2_INSTANCE_LAUNCH_ERROR") →
      (((process_message env m).1.filterMap Effect.recordOp).all
        fun op => decide (op = pstr "DELETE")) = true)
    ∧ selectOperation (pstr "autoscaling:EC2_INSTANCE_LAUNCHING") = some (pstr "UPSERT")
    ∧ selectOperation (pstr "autoscaling:EC2_INSTANCE_TERMINATING") = some (pstr "DELETE")
    ∧ selectOperation (pstr "autoscaling:EC2_INSTANCE_LAUNCH_ERROR")
        = some (pstr "DELETE") := by
  have key : ∀ t s, m.lifecycleTransition = some t → selectOperation t = some s →
      (((process_message env m).1.filterMap Effect.recordOp).all
        fun op => decide (op = s)) = true := by
    intro t s ht hsel
    rw [List.all_eq_true]
    intro op hop
    rcases List.mem_filterMap.mp hop with ⟨e, hel, hrec⟩
    cases e with
    | logError a => simp [Effect.recordOp] at hrec
    | createTags a b => simp [Effect.recordOp] at hrec
    | completeLifecycleAction a b c d f => simp [Effect.recordOp] at hrec
    | changeRecord zz ii hh oo =>
      simp only [Effect.recordOp, Option.some.injEq] at hrec
      subst hrec
      have hsel2 := process_message_record_ops env m t ht zz ii hh oo hel
      rw [hsel] at hsel2
      obtain rfl : s = oo := Option.some.inj hsel2
      simp
  exact ⟨fun ht => key _ _ ht (by decide), fun ht => key _ _ ht (by decide),
    fun ht => key _ _ ht (by decide), by decide, by decide, by decide⟩

theorem claim_C3_witness :
    ((process_message env0 msgLaunch).1.filterMap Effect.recordOp = [pstr "UPSERT"])
    ∧ (((process_message env0 msgLaunch).1.filterMap Effect.recordOp).all
        fun op => decide (op = pstr "UPSERT")) = true :=
  ⟨by decide, (claim_C3 env0 msgLaunch).1 (by decide)⟩

/-- Claim C4: for every hostname pattern containing none of the tokens
`instanceid`, `instance-count`, `instance-index`, `build_hostname`
terminates the process with exit status 1 (after logging the error), and
when such a pattern is the one fetched for a lifecycle message,
`process_message` aborts with that `sys.exit` and its effect trace holds
only error logs — no tag update and no DNS change was performed for that
message. -/
theorem claim_C4 (env : Env) (m : Message) (t a i tv p z : PyStr) (rest : List PyStr)
    (ht : m.lifecycleTransition = some t)
    (ha : m.autoScalingGroupName = some a)
    (hi : m.ec2InstanceId = some i)
    (htag : env.asgTagValues a = tv :: rest)
    (hsplit : pySplit tv (pstr "@") = [p, z])
    (h1 : pyIn (pstr "instanceid") p = false)
    (h2 : pyIn (pstr "instance-count") p = false)
    (h3 : pyIn (pstr "instance-index") p = false) :
    build_hostname env p i a
      = ([Effect.logError msgNoToken], Except.error (PyError.sysExit 1))
    ∧ (process_message env m).2 = some (PyError.sysExit 1)
    ∧ ∀ e ∈ (process_message env m).1, e.isLogError = true := by
  have hb : build_hostname env p i a
      = ([Effect.logError msgNoToken], Except.error (PyError.sysExit 1)) := by
    unfold build_hostname
    simp [possible_tags, h1, h2, h3]
  refine ⟨hb, ?_, ?_⟩
  · unfold process_message
    rw [ht]
    simp only [ha, hi, fetch_tag_metadata, htag, hsplit, hb]
  · intro e he
    unfold process_message at he
    rw [ht] at he
    simp only [ha, hi, fetch_tag_metadata, htag, hsplit, hb] at he
    repeat' split at he
    all_goals cases e <;> simp_all [Effect.isLogError]

theorem claim_C4_witness :
    build_hostname envBadTag (pstr "web.example.com") (pstr "i-1") (pstr "asg1")
      = ([Effect.logError msgNoToken], Except.error (PyError.sysExit 1))
    ∧ (process_message envBadTag msgLaunch).2 = some (PyError.sysExit 1) := by
  have h := claim_C4 envBadTag msgLaunch (pstr "autoscaling:EC2_INSTANCE_LAUNCHING")
      (pstr "asg1") (pstr "i-1") (pstr "web.example.com@ZONE1")
      (pstr "web.example.com") (pstr "ZONE1") []
      (by decide) (by decide) (by decide) (by decide) (by decide)
      (by decide) (by decide) (by decide)
  exact ⟨h.1, h.2.1⟩

/-- Claim C7: for every message whose `LifecycleTransition` value is none
of the three recognized transitions, `process_message` first logs the
unknown-event error, its effect trace holds only error logs (so no DNS
change is committed), and it always aborts with an uncaught error; in
particular when every later step succeeds it faults with NameError on the
unbound `operation` variable. -/
theorem claim_C7 (env : Env) (m : Message) (t : PyStr)
    (ht : m.lifecycleTransition = some t)
    (hunk : selectOperation t = none) :
    (process_message env m).2.isSome = true
    ∧ (process_message env m).1.head? = some (Effect.logError msgUnknownEvent)
    ∧ (∀ e ∈ (process_message env m).1, e.isLogError = true)
    ∧ (∀ a i tv p z h, ∀ rest : List PyStr,
        m.autoScalingGroupName = some a → m.ec2InstanceId = some i →
        env.asgTagValues a = tv :: rest → pySplit tv (pstr "@") = [p, z] →
        build_hostname env p i a = ([], Except.ok h) →
        process_message env m
          = ([Effect.logError msgUnknownEvent], some PyError.nameError)) := by
  refine ⟨process_message_unknown_isSome env m t ht hunk,
    process_message_unknown_head env m t ht hunk,
    process_message_unknown_all_log env m t ht hunk, ?_⟩
  intro a i tv p z h rest ha hi htag hsplit hb
  unfold process_message
  rw [ht]
  simp [ha, hi, fetch_tag_metadata, htag, hsplit, hb, hunk]

theorem claim_C7_witness :
    process_message env0 msgUnknownTrans
      = ([Effect.logError msgUnknownEvent], some PyError.nameError) :=
  (claim_C7 env0 msgUnknownTrans (pstr "autoscaling:EC2_INSTANCE_REBOOT")
      (by decide) (by decide)).2.2.2
    (pstr "asg1") (pstr "i-1") (pstr "web-#instanceid.example.com@ZONE1")
    (pstr "web-#instanceid.example.com") (pstr "ZONE1")
    (pstr "web-i-1.example.com") []
    (by decide) (by decide) (by decide) (by decide) (by decide)

/-- Claim C5 (amended): for every non-empty batch all of whose records
process without an uncaught error and whose last record's message lacks
the lifecycle hook name or the ASG name key, `lambda_handler` logs the
"No valid JSON message" error and makes no lifecycle-completion call,
without raising an uncaught error.  (As stated the claim also covered the
empty batch, where the code instead raises an uncaught NameError — see
the counterexample.) -/
theorem claim_C5 (env : Env) (ms : List Message) (m : Message) (effs : List Effect)
    (hloop : runRecords env (ms ++ [m]) = (effs, none))
    (hmiss : m.lifecycleHookName = none ∨ m.autoScalingGroupName = none) :
    lambda_handler env (ms ++ [m])
      = (effs ++ [Effect.logError msgNoValidJson], none)
    ∧ (lambda_handler env (ms ++ [m])).1.countP Effect.isCompletion = 0 := by
  have hll : lambda_handler env (ms ++ [m])
      = (effs ++ [Effect.logError msgNoValidJson], none) := by
    unfold lambda_handler
    simp only [hloop]
    rw [List.getLast?_concat]
    rcases hmiss with hh | hh
    · simp [hh]
    · rcases hk : m.lifecycleHookName with _ | k <;> simp [hk, hh]
  refine ⟨hll, ?_⟩
  rw [hll]
  apply countP_completion_eq_zero
  intro e he
  rcases List.mem_append.mp he with hme | hme
  · have hnc := runRecords_not_completion env (ms ++ [m]) e
    rw [hloop] at hnc
    exact hnc hme
  · simp only [List.mem_singleton] at hme
    subst hme
    rfl

/-- Counterexample to claim C5 as stated: on the empty batch the loop
variable `record` is never bound, so line 174 of `lambda_handler` raises
an uncaught NameError — no error is logged and an uncaught error IS
raised, contradicting the claim's empty-batch case. -/
theorem claim_C5_counterexample :
    lambda_handler env0 [] = ([], some PyError.nameError) := by decide

theorem claim_C5_witness :
    lambda_handler env0 [msgInfo] = ([Effect.logError msgNoValidJson], none) :=
  (claim_C5 env0 [] msgInfo [] (by decide) (Or.inl (by decide))).1

/-- Claim C6 (amended): for every non-empty batch all of whose records
process without an uncaught error and whose last record's message carries
`LifecycleHookName`, `AutoScalingGroupName`, `EC2InstanceId` and
`LifecycleActionToken`, `lambda_handler` makes exactly one
lifecycle-completion call, with result CONTINUE, supplying the hook name,
ASG name, instance id and action token of that last message, regardless
of how many records the batch contains.  (As stated the claim did not
require the earlier records to process cleanly; a failing earlier record
aborts the handler before the completion call — see the
counterexample.) -/
theorem claim_C6 (env : Env) (ms : List Message) (m : Message) (effs : List Effect)
    (hook asg_name instance_id token : PyStr)
    (hloop : runRecords env (ms ++ [m]) = (effs, none))
    (hhook : m.lifecycleHookName = some hook)
    (hasg : m.autoScalingGroupName = some asg_name)
    (hiid : m.ec2InstanceId = some instance_id)
    (htok : m.lifecycleActionToken = some token) :
    lambda_handler env (ms ++ [m])
      = (effs ++ [Effect.completeLifecycleAction hook asg_name instance_id token
          (pstr "CONTINUE")], none)
    ∧ (lambda_handler env (ms ++ [m])).1.countP Effect.isCompletion = 1 := by
  have hll : lambda_handler env (ms ++ [m])
      = (effs ++ [Effect.completeLifecycleAction hook asg_name instance_id token
          (pstr "CONTINUE")], none) := by
    unfold lambda_handler
    simp only [hloop]
    rw [List.getLast?_concat]
    simp [hhook, hasg, hiid, htok]
  refine ⟨hll, ?_⟩
  rw [hll]
  have h0 : effs.countP Effect.isCompletion = 0 := by
    apply countP_completion_eq_zero
    intro e he
    have hnc := runRecords_not_completion env (ms ++ [m]) e
    rw [hloop] at hnc
    exact hnc he
  rw [List.countP_append, h0]
  simp [List.countP_cons, Effect.isCompletion]

/-- Counterexample to claim C6 as stated: in a two-record batch whose
last message carries both guard keys (and the other two), a KeyError
while processing the FIRST record aborts the handler before line 173, so
no completion call is made at all. -/
theorem claim_C6_counterexample :
    msgLaunch.lifecycleHookName.isSome = true
    ∧ msgLaunch.autoScalingGroupName.isSome = true
    ∧ lambda_handler env0 [msgBadAsg, msgLaunch]
        = ([], some (PyError.keyError (pstr "AutoScalingGroupName")))
    ∧ (lambda_handler env0 [msgBadAsg, msgLaunch]).1.countP Effect.isCompletion = 0 := by
  refine ⟨by decide, by decide, by decide, by decide⟩

theorem claim_C6_witness :
    lambda_handler env0 [msgInfo, msgLaunch]
      = ([Effect.createTags (pstr "i-1") (pstr "web-i-1"),
          Effect.changeRecord (pstr "ZONE1") (pstr "10.0.0.5")
            (pstr "web-i-1.example.com") (pstr "UPSERT"),
          Effect.completeLifecycleAction (pstr "hook1") (pstr "asg1") (pstr "i-1")
            (pstr "token1") (pstr "CONTINUE")], none)
    ∧ (lambda_handler env0 [msgInfo, msgLaunch]).1.countP Effect.isCompletion = 1 := by
  have h := claim_C6 env0 [msgInfo] msgLaunch
      [Effect.createTags (pstr "i-1") (pstr "web-i-1"),
       Effect.changeRecord (pstr "ZONE1") (pstr "10.0.0.5")
         (pstr "web-i-1.example.com") (pstr "UPSERT")]
      (pstr "hook1") (pstr "asg1") (pstr "i-1") (pstr "token1")
      (by decide) (by decide) (by decide) (by decide) (by decide)
  exact ⟨h.1.trans (by decide), h.2⟩

/-- Claim C10: the lifecycle-completion guard of `lambda_handler` checks
only the presence of `LifecycleHookName` and `AutoScalingGroupName` in
the last message; when those two keys are present but `EC2InstanceId`
(respectively `LifecycleActionToken`) is absent, the completion step
raises an uncaught KeyError on that key instead of logging and
skipping. -/
theorem claim_C10 (env : Env) (ms : List Message) (m : Message) (effs : List Effect)
    (hook asg_name : PyStr)
    (hloop : runRecords env (ms ++ [m]) = (effs, none))
    (hhook : m.lifecycleHookName = some hook)
    (hasg : m.autoScalingGroupName = some asg_name) :
    (m.ec2InstanceId = none →
       lambda_handler env (ms ++ [m])
         = (effs, some (PyError.keyError (pstr "EC2InstanceId"))))
    ∧ (∀ instance_id, m.ec2InstanceId = some instance_id →
       m.lifecycleActionToken = none →
       lambda_handler env (ms ++ [m])
         = (effs, some (PyError.keyError (pstr "LifecycleActionToken")))) := by
  constructor
  · intro hiid
    unfold lambda_handler
    simp only [hloop]
    rw [List.getLast?_concat]
    simp [hhook, hasg, hiid]
  · intro instance_id hiid htok
    unfold lambda_handler
    simp only [hloop]
    rw [List.getLast?_concat]
    simp [hhook, hasg, hiid, htok]

theorem claim_C10_witness :
    lambda_handler env0 [msgHookNoIid]
      = ([], some (PyError.keyError (pstr "EC2InstanceId")))
    ∧ lambda_handler env0 [msgHookNoTok]
      = ([], some (PyError.keyError (pstr "LifecycleActionToken"))) := by
  constructor
  · exact (claim_C10 env0 [] msgHookNoIid [] (pstr "hook1") (pstr "asg1")
      (by decide) (by decide) (by decide)).1 (by decide)
  · exact (claim_C10 env0 [] msgHookNoTok [] (pstr "hook1") (pstr "asg1")
      (by decide) (by decide) (by decide)).2 (pstr "i-1") (by decide) (by decide)
